import Mathlib

/-!
Shallow embedding of the luiza-supabase phone-verification edge functions.

Source files embedded here:
- supabase/functions/verification-verify/index.ts (the verify handler and its
  phone regex),
- the verification-start edge function (its validatePhoneNumber with
  test-number fallback, and its request handler),
- the SQL trigger function handle_new_user over public.profiles.

External effects (the Supabase auth client calls and the profile select) are
modelled by passing each call outcome as an explicit parameter; a handler
returns the HTTP response it builds together with the list of provider calls
it issued on that execution path.
-/

namespace Luiza

/-- One Supabase session object as returned by the provider redeem call and
serialized verbatim into the success response (access/refresh tokens, expiry,
token type). -/
structure Session where
  access_token : String
  refresh_token : String
  expires_in : Nat
  token_type : String
deriving DecidableEq, Repr

/-- The fields of the provider user record that the verify handler reads
(data.user.id and data.user.phone). -/
structure UserData where
  id : String
  phone : Option String
deriving DecidableEq, Repr

/-- The five columns selected from public.profiles by the verify handler;
each is nullable in the schema. -/
structure ProfileData where
  email : Option String
  first_name : Option String
  last_name : Option String
  phone : Option String
  correspondence_address : Option String
deriving DecidableEq, Repr

/-- A provider call issued by a handler, recorded in the call trace. -/
inductive ProviderCall where
  | verifyOtp (phone : String) (token : String)
  | profileSelect (id : String)
  | signInWithOtp (phone : String)
deriving DecidableEq, Repr

/-- The user object of the verify success response: literally the object
with keys id, phone, profile built at the end of the verify handler. -/
structure ResponseUser where
  id : String
  phone : Option String
  profile : ProfileData
deriving DecidableEq, Repr

/-- The JSON body of a response built by either handler. Each constructor is
one of the literal object shapes in the source. -/
inductive ResponseBody where
  | text (s : String)
  | jsonError (error : String)
  | startSuccess (message : String) (phone_number : String)
  | verifySuccess (message : String) (session : Session) (user : ResponseUser)
deriving DecidableEq, Repr

/-- An HTTP response: status code and body. CORS headers are constant in the
source and are not modelled. -/
structure HttpResponse where
  status : Nat
  body : ResponseBody
deriving DecidableEq, Repr

/-- Outcome of `await req.json()` followed by destructuring: `failed` when the
body does not parse as JSON (the outer catch fires), otherwise the
destructured fields, each possibly absent. -/
inductive BodyParse (α : Type) where
  | failed
  | ok (value : α)
deriving DecidableEq, Repr

/-- Outcome of `supabaseClient.auth.verifyOtp`: either the awaited promise
rejects (the inner catch fires), or it resolves to an object with an optional
error, an optional session and an optional user. -/
inductive VerifyOtpOutcome where
  | throws
  | result (error : Option String) (session : Option Session) (user : Option UserData)
deriving DecidableEq, Repr

/-- Outcome of the session-scoped `from("profiles").select(...).maybeSingle()`
call. The query builder reports failures through its error field rather than
by rejecting, and on error or on no matching row the data field is null, so
the outcomes are: an error (data null), no row (data null), or one row. -/
inductive ProfileReadOutcome where
  | readError (e : String)
  | noRow
  | row (p : ProfileData)
deriving DecidableEq, Repr

/-- Outcome of `supabaseClient.auth.signInWithOtp`: the awaited promise
rejects, or it resolves with an error object, or it resolves cleanly. -/
inductive SignInOtpOutcome where
  | throws
  | otpError (detail : String)
  | sent
deriving DecidableEq, Repr

namespace VerificationVerify

/-- PHONE_REGEX from verification-verify/index.ts. The ECMAScript regex
`\+[1-9]\d\x7b1,14\x7d` anchored at both ends: a plus sign, one digit 1-9,
then one to fourteen digits. -/
def phoneRegexTest (s : String) : Bool :=
  match s.data with
  | '+' :: c :: rest =>
      ('1' ≤ c && c ≤ '9') && (1 ≤ rest.length && rest.length ≤ 14)
        && rest.all Char.isDigit
  | _ => false

/-- validatePhoneNumber from verification-verify/index.ts:
`PHONE_REGEX.test(phone)`. -/
def validatePhoneNumber (phone : String) : Bool :=
  phoneRegexTest phone

/-- The check `!verification_code || verification_code.length !== 6` on the
destructured field: true exactly when the 400 "Invalid verification code"
branch is taken. An absent or empty string field is falsy in JS. -/
def codeRejected (c : Option String) : Bool :=
  match c with
  | none => true
  | some s => s.isEmpty || s.length != 6

/-- The destructured verify request body: both fields may be absent. -/
structure VerifyBody where
  phone_number : Option String
  verification_code : Option String
deriving DecidableEq, Repr

/-- The profile object placed in the success response: the selected row when
one came back, otherwise every field null
(`userProfile?.email ?? null` and the four analogous lines). -/
def responseProfile (o : ProfileReadOutcome) : ProfileData :=
  match o with
  | .row p => p
  | _ => ⟨none, none, none, none, none⟩

/-- The Deno.serve handler of verification-verify/index.ts as a function of
the request method, the parsed body, and the outcomes of the two provider
calls. Returns the response and the provider calls issued on that path. -/
def verifyHandler (method : String) (body : BodyParse VerifyBody)
    (otp : VerifyOtpOutcome) (profileRead : ProfileReadOutcome) :
    HttpResponse × List ProviderCall :=
  if method == "OPTIONS" then
    (⟨200, .text "ok"⟩, [])
  else if method != "POST" then
    (⟨405, .jsonError "Method not allowed"⟩, [])
  else
    match body with
    | .failed => (⟨500, .jsonError "Internal server error"⟩, [])
    | .ok b =>
      if !(match b.phone_number with
           | some p => validatePhoneNumber p
           | none => false) then
        (⟨400, .jsonError "Invalid phone number format"⟩, [])
      else if codeRejected b.verification_code then
        (⟨400, .jsonError "Invalid verification code. Code must be 6 digits."⟩, [])
      else
        let phone := b.phone_number.getD ""
        let token := b.verification_code.getD ""
        let calls := [ProviderCall.verifyOtp phone token]
        match otp with
        | .throws =>
            (⟨500, .jsonError "Verification failed. Please try again."⟩, calls)
        | .result e sess usr =>
          match e with
          | some _ => (⟨400, .jsonError "Invalid verification code"⟩, calls)
          | none =>
            match sess with
            | none =>
                (⟨500, .jsonError "Verification failed. No session created."⟩, calls)
            | some s =>
              match usr with
              | none =>
                  (⟨500, .jsonError "Verification failed. No user data available."⟩,
                   calls)
              | some u =>
                  (⟨200, .verifySuccess "Phone verification successful" s
                      ⟨u.id, u.phone, responseProfile profileRead⟩⟩,
                   calls ++ [ProviderCall.profileSelect u.id])

end VerificationVerify

namespace VerificationStart

/-- The first test-number regex of the start validator,
`\+1234567\d\x7b3\x7d` anchored: the first eight characters are the literal
prefix +1234567 and the remainder is exactly three digits. -/
def isTestPattern1 (s : String) : Bool :=
  (s.data.take 8 == ['+', '1', '2', '3', '4', '5', '6', '7'])
    && ((s.data.drop 8).length == 3 && (s.data.drop 8).all Char.isDigit)

/-- The second test-number regex, `\+[89]\x7b10,11\x7d` anchored: a plus sign
followed by ten or eleven characters, each of which is the digit 8 or the
digit 9. -/
def isTestPattern2 (s : String) : Bool :=
  (s.data.take 1 == ['+'])
    && ((s.data.drop 1).length == 10 || (s.data.drop 1).length == 11)
    && (s.data.drop 1).all (fun c => c == '8' || c == '9')

/-- isLikelyTestNumber in the start validator: either test regex matches. -/
def isLikelyTestNumber (s : String) : Bool :=
  isTestPattern1 s || isTestPattern2 s

/-- The check `phone.startsWith("+")`: the first character is a plus. -/
def startsWithPlus (s : String) : Bool :=
  s.data.take 1 == ['+']

/-- Outcome of `parsePhoneNumber(phone)` from libphonenumber-js inside the
try block: the call throws, returns a falsy value, or returns a parsed
number whose isValid() is the given flag. -/
inductive ParseOutcome where
  | throws
  | nullResult
  | parsed (valid : Bool)
deriving DecidableEq, Repr

/-- The behavior of the external libphonenumber-js library, abstracted: the
parsePhoneNumber outcome and the standalone isValidPhoneNumber predicate per
input string. The library is an external dependency, so handler theorems
quantify over it. -/
structure PhoneLib where
  parse : String → ParseOutcome
  isValidStandalone : String → Bool

/-- The validation result object of the start validator: isValid, optional
error message, optional test-number flag (the source omits the flag on the
error returns). -/
structure ValidationResult where
  isValid : Bool
  error : Option String
  isTestNumber : Option Bool
deriving DecidableEq, Repr

/-- validatePhoneNumber of the verification-start function, over the library
behavior. Follows the source branch for branch: required check, plus-prefix
check, then libphonenumber parsing with the test-number fallback in the
falsy-result, invalid, and catch branches, and the standalone check last. -/
def validatePhoneNumber (lib : PhoneLib) (phone : Option String) : ValidationResult :=
  match phone with
  | none => ⟨false, some "Phone number is required", none⟩
  | some p =>
    if p.data.isEmpty then ⟨false, some "Phone number is required", none⟩
    else if !(startsWithPlus p) then
      ⟨false, some "Phone number must include country code (start with +)", none⟩
    else
      let t := isLikelyTestNumber p
      match lib.parse p with
      | .throws =>
          if t then ⟨true, none, some true⟩
          else ⟨false, some "Invalid phone number format", none⟩
      | .nullResult =>
          if t then ⟨true, none, some true⟩
          else ⟨false, some "Invalid phone number format", none⟩
      | .parsed valid =>
          if !valid then
            if t then ⟨true, none, some true⟩
            else ⟨false, some "Invalid phone number for the specified country", none⟩
          else if !(lib.isValidStandalone p) && !t then
            ⟨false, some "Phone number format is not valid", none⟩
          else
            ⟨true, none, some t⟩

/-- The Deno.serve handler of the verification-start function as a function
of the library behavior, request method, parsed body (the phone_number field,
possibly absent), and the signInWithOtp outcome. Returns the response and
the provider calls issued on that path. -/
def startHandler (lib : PhoneLib) (method : String)
    (body : BodyParse (Option String)) (send : SignInOtpOutcome) :
    HttpResponse × List ProviderCall :=
  if method == "OPTIONS" then
    (⟨200, .text "ok"⟩, [])
  else if method != "POST" then
    (⟨405, .jsonError "Method not allowed"⟩, [])
  else
    match body with
    | .failed => (⟨500, .jsonError "Internal server error"⟩, [])
    | .ok phoneOpt =>
      let validation := validatePhoneNumber lib phoneOpt
      if !validation.isValid then
        (⟨400, .jsonError (validation.error.getD
            "Invalid phone number format. Please use international format (e.g., +1234567890)")⟩,
         [])
      else
        let phone := phoneOpt.getD ""
        let calls := [ProviderCall.signInWithOtp phone]
        match send with
        | .throws =>
            (⟨500, .jsonError "Failed to send verification code. Please try again."⟩, calls)
        | .otpError _ =>
            (⟨500, .jsonError "Failed to send verification code. Please try again."⟩, calls)
        | .sent =>
            (⟨200, .startSuccess "Verification code sent successfully" phone⟩, calls)

/-- A concrete library behavior under which general international-number
validation fails on every input: parsing yields no number and the standalone
check is false. Used to instantiate library-quantified theorems. -/
def rejectAllLib : PhoneLib :=
  ⟨fun _ => ParseOutcome.nullResult, fun _ => false⟩

end VerificationStart

namespace ProfilesTrigger

/-- The NEW row of the AFTER INSERT trigger on auth.users: the columns the
trigger body reads. -/
structure AuthUserRow where
  id : String
  email : Option String
  phone : Option String
deriving DecidableEq, Repr

/-- A row of public.profiles restricted to its data columns; the
server-assigned created_at and updated_at timestamps are not modelled. -/
structure ProfileRow where
  id : String
  first_name : Option String
  last_name : Option String
  email : Option String
  phone : Option String
  correspondence_address : Option String
deriving DecidableEq, Repr

/-- The row inserted by the trigger body for a new user: columns id, email,
phone from NEW, the remaining columns defaulting to null. -/
def profileRowFor (u : AuthUserRow) : ProfileRow :=
  ⟨u.id, none, none, u.email, u.phone, none⟩

/-- handle_new_user from the SQL migration: insert (id, email, phone) of NEW
into public.profiles with ON CONFLICT (id) DO NOTHING, then RETURN NEW. The
table is the list of its rows; the primary-key conflict test is existence of
a row with the same id. -/
def handle_new_user (profiles : List ProfileRow) (new : AuthUserRow) :
    List ProfileRow × AuthUserRow :=
  if profiles.any (fun r => r.id == new.id) then (profiles, new)
  else (profiles ++ [profileRowFor new], new)

end ProfilesTrigger

/-! Helper lemmas about the start validator. -/

namespace VerificationStart

/-- A string matched by either test-number regex begins with a plus and is
nonempty, so the two early rejection branches of the start validator do not
fire on it. -/
theorem startsWithPlus_of_testNumber (p : String)
    (ht : isLikelyTestNumber p = true) :
    startsWithPlus p = true ∧ p.data.isEmpty = false := by
  have hplus : startsWithPlus p = true := by
    rcases Bool.or_eq_true_iff.mp (by simpa [isLikelyTestNumber] using ht) with h1 | h2
    · simp only [isTestPattern1, Bool.and_eq_true, beq_iff_eq] at h1
      have h8 := h1.1
      have h11 : p.data.take 1 = (p.data.take 8).take 1 := by
        rw [List.take_take]; norm_num
      have : p.data.take 1 = ['+'] := by rw [h11, h8]; rfl
      simpa [startsWithPlus] using this
    · simp only [isTestPattern2, Bool.and_eq_true, beq_iff_eq] at h2
      simpa [startsWithPlus] using h2.1.1
  refine ⟨hplus, ?_⟩
  cases hd : p.data with
  | nil => rw [startsWithPlus, hd] at hplus; exact absurd hplus (by decide)
  | cons c rest => simp [hd]

/-- On a test-pattern string, the start validator returns isValid true with
the test-number flag set, whatever the library does: every branch of the
validator that consults the library falls back to acceptance when
isLikelyTestNumber holds. -/
theorem validate_accepts_testNumber (lib : PhoneLib) (p : String)
    (ht : isLikelyTestNumber p = true) :
    validatePhoneNumber lib (some p) = ⟨true, none, some true⟩ := by
  obtain ⟨hplus, hne⟩ := startsWithPlus_of_testNumber p ht
  simp only [validatePhoneNumber, hne, Bool.false_eq_true, if_false, hplus,
    Bool.not_true, ht]
  cases hparse : lib.parse p with
  | throws => simp
  | nullResult => simp
  | parsed valid => cases valid <;> simp

/-- On a plus-prefixed string that matches neither test pattern, the start
validator rejects whenever the library validation does not fully succeed,
i.e. unless parsing yields a valid number and the standalone check passes. -/
theorem validate_rejects_nonTest_genFail (lib : PhoneLib) (p : String)
    (hplus : startsWithPlus p = true)
    (ht : isLikelyTestNumber p = false)
    (hgen : ¬(lib.parse p = .parsed true ∧ lib.isValidStandalone p = true)) :
    (validatePhoneNumber lib (some p)).isValid = false := by
  have hne : p.data.isEmpty = false := by
    cases hd : p.data with
    | nil => rw [startsWithPlus, hd] at hplus; exact absurd hplus (by decide)
    | cons c rest => simp [hd]
  simp only [validatePhoneNumber, hne, Bool.false_eq_true, if_false, hplus,
    Bool.not_true, ht]
  cases hparse : lib.parse p with
  | throws => simp
  | nullResult => simp
  | parsed valid =>
    cases valid with
    | false => simp [ht]
    | true =>
      cases hb : lib.isValidStandalone p with
      | false => simp [hb, ht]
      | true => exact absurd ⟨hparse, hb⟩ hgen

end VerificationStart

/-! Claim theorems. -/

open VerificationVerify VerificationStart ProfilesTrigger

/-- C1: when the phone passes the verify regex, the code passes the shape
check, and the redeem call returns no error with both a session and a user,
the verify handler responds 200 with the success message, the provider
session passed through unchanged, and a user object of exactly the fields
id, phone and a five-field profile sub-object (the exact field sets are
fixed by the ResponseUser and ProfileData structure types), profile fields
taken from the selected row and null when no row is available. -/
theorem C1_verify_success_response
    (phone code : String) (s : Session) (u : UserData) (p : ProfileReadOutcome)
    (hphone : validatePhoneNumber phone = true)
    (hcode : codeRejected (some code) = false) :
    (verifyHandler "POST" (.ok ⟨some phone, some code⟩)
        (.result none (some s) (some u)) p).1
      = ⟨200, .verifySuccess "Phone verification successful" s
          ⟨u.id, u.phone, responseProfile p⟩⟩ := by
  simp [verifyHandler, hphone, hcode]

/-- Witness for C1 at a concrete request, session, user, and a missing
profile row. -/
theorem C1_witness :
    (verifyHandler "POST" (.ok ⟨some "+12345678", some "123456"⟩)
        (.result none (some ⟨"at", "rt", 3600, "bearer"⟩)
          (some ⟨"uid", some "12345678"⟩)) .noRow).1
      = ⟨200, .verifySuccess "Phone verification successful" ⟨"at", "rt", 3600, "bearer"⟩
          ⟨"uid", some "12345678", ⟨none, none, none, none, none⟩⟩⟩ :=
  C1_verify_success_response "+12345678" "123456" ⟨"at", "rt", 3600, "bearer"⟩
    ⟨"uid", some "12345678"⟩ .noRow (by decide) (by decide)

/-- C2: after a redeem call that reports no error, a missing session yields
500 with the no-session message whatever the user field holds, a present
session with a missing user yields 500 with the no-user message, and the two
messages are distinct; neither case is a 400-class response. -/
theorem C2_missing_session_or_user
    (phone code : String) (uOpt : Option UserData) (s : Session)
    (p q : ProfileReadOutcome)
    (hphone : validatePhoneNumber phone = true)
    (hcode : codeRejected (some code) = false) :
    (verifyHandler "POST" (.ok ⟨some phone, some code⟩)
        (.result none none uOpt) p).1
      = ⟨500, .jsonError "Verification failed. No session created."⟩
    ∧ (verifyHandler "POST" (.ok ⟨some phone, some code⟩)
        (.result none (some s) none) q).1
      = ⟨500, .jsonError "Verification failed. No user data available."⟩
    ∧ "Verification failed. No session created."
        ≠ "Verification failed. No user data available." := by
  refine ⟨?_, ?_, by decide⟩ <;> simp [verifyHandler, hphone, hcode]

/-- Witness for C2 at a concrete request and both invariant-violation
shapes. -/
theorem C2_witness :
    (verifyHandler "POST" (.ok ⟨some "+12345678", some "123456"⟩)
        (.result none none none) .noRow).1
      = ⟨500, .jsonError "Verification failed. No session created."⟩
    ∧ (verifyHandler "POST" (.ok ⟨some "+12345678", some "123456"⟩)
        (.result none (some ⟨"at", "rt", 3600, "bearer"⟩) none) .noRow).1
      = ⟨500, .jsonError "Verification failed. No user data available."⟩
    ∧ "Verification failed. No session created."
        ≠ "Verification failed. No user data available." :=
  C2_missing_session_or_user "+12345678" "123456" none ⟨"at", "rt", 3600, "bearer"⟩
    .noRow .noRow (by decide) (by decide)

/-- C3 counterexample: at a valid phone and the five-character code 12345,
the 400 body carries the message "Invalid verification code. Code must be 6
digits.", which is not the string "Invalid verification code" stated by the
claim. -/
theorem C3_counterexample :
    (verifyHandler "POST" (.ok ⟨some "+12345678", some "12345"⟩)
        (.result none none none) .noRow).1
      = ⟨400, .jsonError "Invalid verification code. Code must be 6 digits."⟩
    ∧ ResponseBody.jsonError "Invalid verification code. Code must be 6 digits."
        ≠ ResponseBody.jsonError "Invalid verification code" := by
  constructor
  · decide
  · decide

/-- C3 amended: when the phone passes the verify regex and the verification
code is absent or not exactly six characters long, the handler responds 400
with the message "Invalid verification code. Code must be 6 digits." and
issues no provider call, whatever the redeem and profile-read outcomes would
have been. -/
theorem C3_code_shape_rejected
    (phone : String) (c : Option String)
    (otp : VerifyOtpOutcome) (p : ProfileReadOutcome)
    (hphone : validatePhoneNumber phone = true)
    (hcode : c = none ∨ ∃ s, c = some s ∧ s.length ≠ 6) :
    verifyHandler "POST" (.ok ⟨some phone, c⟩) otp p
      = (⟨400, .jsonError "Invalid verification code. Code must be 6 digits."⟩, []) := by
  have hrej : codeRejected c = true := by
    rcases hcode with h | ⟨s, rfl, hlen⟩
    · simp [h, codeRejected]
    · simp [codeRejected, hlen]
  simp [verifyHandler, hphone, hrej]

/-- Witness for the amended C3 at a concrete five-character code. -/
theorem C3_witness :
    (some "12345" = none ∨ ∃ s, some "12345" = some s ∧ s.length ≠ 6)
    ∧ verifyHandler "POST" (.ok ⟨some "+12345678", some "12345"⟩)
        (.result none none none) .noRow
      = (⟨400, .jsonError "Invalid verification code. Code must be 6 digits."⟩, []) :=
  ⟨Or.inr ⟨"12345", rfl, by decide⟩,
   C3_code_shape_rejected "+12345678" (some "12345") (.result none none none) .noRow
     (by decide) (Or.inr ⟨"12345", rfl, by decide⟩)⟩

/-- C4: a provider rejection of the redeem call yields 400 with exactly the
message "Invalid verification code", and a failed OTP-send in the start
handler yields 500 with the generic retry message; both responses are
constants, quantified over the provider error detail, so provider error
details never reach the response body. -/
theorem C4_provider_failures_hidden :
    (∀ (phone code detail : String) (sOpt : Option Session) (uOpt : Option UserData)
        (p : ProfileReadOutcome),
      validatePhoneNumber phone = true → codeRejected (some code) = false →
      (verifyHandler "POST" (.ok ⟨some phone, some code⟩)
          (.result (some detail) sOpt uOpt) p).1
        = ⟨400, .jsonError "Invalid verification code"⟩)
    ∧ (∀ (lib : PhoneLib) (phoneOpt : Option String) (detail : String),
      (VerificationStart.validatePhoneNumber lib phoneOpt).isValid = true →
      (startHandler lib "POST" (.ok phoneOpt) (.otpError detail)).1
        = ⟨500, .jsonError "Failed to send verification code. Please try again."⟩) := by
  constructor
  · intro phone code detail sOpt uOpt p hphone hcode
    simp [verifyHandler, hphone, hcode]
  · intro lib phoneOpt detail hvalid
    simp [startHandler, hvalid]

/-- Witness for C4 at concrete provider error details. -/
theorem C4_witness :
    (verifyHandler "POST" (.ok ⟨some "+12345678", some "123456"⟩)
        (.result (some "otp_expired: token has expired or is invalid") none none)
        .noRow).1
      = ⟨400, .jsonError "Invalid verification code"⟩
    ∧ (startHandler rejectAllLib "POST" (.ok (some "+8888888888"))
        (.otpError "sms quota exceeded")).1
      = ⟨500, .jsonError "Failed to send verification code. Please try again."⟩ :=
  ⟨C4_provider_failures_hidden.1 "+12345678" "123456"
      "otp_expired: token has expired or is invalid" none none .noRow
      (by decide) (by decide),
   C4_provider_failures_hidden.2 rejectAllLib (some "+8888888888")
      "sms quota exceeded" (by decide)⟩

/-- C5: when the redeem call succeeds with session and user but the profile
read reports an error or finds no row, the handler still responds 200 and
the five profile fields in the response are all null; the status is the same
200 as on a successful read. -/
theorem C5_profile_read_nonfatal
    (phone code : String) (s : Session) (u : UserData) (p : ProfileReadOutcome)
    (hphone : validatePhoneNumber phone = true)
    (hcode : codeRejected (some code) = false)
    (hp : (∃ e, p = .readError e) ∨ p = .noRow) :
    (verifyHandler "POST" (.ok ⟨some phone, some code⟩)
        (.result none (some s) (some u)) p).1
      = ⟨200, .verifySuccess "Phone verification successful" s
          ⟨u.id, u.phone, ⟨none, none, none, none, none⟩⟩⟩ := by
  have hprof : responseProfile p = ⟨none, none, none, none, none⟩ := by
    rcases hp with ⟨e, rfl⟩ | rfl <;> rfl
  simp [verifyHandler, hphone, hcode, hprof]

/-- Witness for C5 at a concrete failed profile read. -/
theorem C5_witness :
    ((∃ e, ProfileReadOutcome.readError "permission denied for table profiles"
        = ProfileReadOutcome.readError e)
      ∨ ProfileReadOutcome.readError "permission denied for table profiles"
        = ProfileReadOutcome.noRow)
    ∧ (verifyHandler "POST" (.ok ⟨some "+12345678", some "123456"⟩)
        (.result none (some ⟨"at", "rt", 3600, "bearer"⟩)
          (some ⟨"uid", some "12345678"⟩))
        (.readError "permission denied for table profiles")).1
      = ⟨200, .verifySuccess "Phone verification successful" ⟨"at", "rt", 3600, "bearer"⟩
          ⟨"uid", some "12345678", ⟨none, none, none, none, none⟩⟩⟩ :=
  ⟨Or.inl ⟨"permission denied for table profiles", rfl⟩,
   C5_profile_read_nonfatal "+12345678" "123456" ⟨"at", "rt", 3600, "bearer"⟩
     ⟨"uid", some "12345678"⟩ (.readError "permission denied for table profiles")
     (by decide) (by decide) (Or.inl ⟨"permission denied for table profiles", rfl⟩)⟩

/-- C6 counterexample: the string +8123456789 is a plus followed by ten
digits whose first digit is 8, yet it matches neither test regex, and under
a library behavior on which general validation fails the start validator
rejects it: the second test regex requires every character after the plus to
be 8 or 9, not merely the first. -/
theorem C6_counterexample :
    ("+8123456789").data.take 1 = ['+']
    ∧ (("+8123456789").data.drop 1).length = 10
    ∧ (("+8123456789").data.drop 1).all Char.isDigit = true
    ∧ (("+8123456789").data.drop 1).head? = some '8'
    ∧ (VerificationStart.validatePhoneNumber rejectAllLib
        (some "+8123456789")).isValid = false := by
  refine ⟨by decide, by decide, by decide, by decide, by decide⟩

/-- C6 amended: whatever the library behavior, the start validator accepts
every string of the shape +1234567 followed by exactly three digits, and
every plus-prefixed string of ten or eleven characters each of which is the
digit 8 or the digit 9, returning isValid true with the test-number flag
set. -/
theorem C6_test_numbers_accepted (lib : PhoneLib) :
    (∀ suffix : String, suffix.length = 3 → suffix.data.all Char.isDigit = true →
      VerificationStart.validatePhoneNumber lib (some ("+1234567" ++ suffix))
        = ⟨true, none, some true⟩)
    ∧ (∀ tail : String, (tail.length = 10 ∨ tail.length = 11) →
      tail.data.all (fun c => c == '8' || c == '9') = true →
      VerificationStart.validatePhoneNumber lib (some ("+" ++ tail))
        = ⟨true, none, some true⟩) := by
  constructor
  · intro suffix hlen hdig
    apply validate_accepts_testNumber
    have hd : ("+1234567" ++ suffix).data
        = ['+', '1', '2', '3', '4', '5', '6', '7'] ++ suffix.data := by
      rw [String.data_append]
    have hlen' : suffix.data.length = 3 := hlen
    have h8 : (['+', '1', '2', '3', '4', '5', '6', '7'] : List Char).length = 8 := rfl
    simp [isLikelyTestNumber, isTestPattern1, hd, List.take_left' h8,
      List.drop_left' h8, hlen', hdig]
  · intro tail hlen hdig
    apply validate_accepts_testNumber
    have hd : ("+" ++ tail).data = ['+'] ++ tail.data := by
      rw [String.data_append]
    have hlen' : tail.data.length = 10 ∨ tail.data.length = 11 := hlen
    have h1 : (['+'] : List Char).length = 1 := rfl
    have hpat : isTestPattern2 ("+" ++ tail) = true := by
      simp [isTestPattern2, hd, List.take_left' h1, List.drop_left' h1, hlen', hdig]
      exact hlen
    simp [isLikelyTestNumber, hpat]

/-- Witness for the amended C6 at the suffix 888. -/
theorem C6_witness :
    ("888" : String).length = 3 ∧ ("888" : String).data.all Char.isDigit = true
    ∧ VerificationStart.validatePhoneNumber rejectAllLib (some ("+1234567" ++ "888"))
        = ⟨true, none, some true⟩ :=
  ⟨by decide, by decide,
   (C6_test_numbers_accepted rejectAllLib).1 "888" (by decide) (by decide)⟩

/-- C7: whenever the start validator rejects the phone (in particular on
every string not starting with a plus, second conjunct), the start handler
responds 400 with an error body and its provider-call trace is empty: the
signInWithOtp call is never issued on that path. -/
theorem C7_invalid_phone_no_send :
    (∀ (lib : PhoneLib) (phoneOpt : Option String) (send : SignInOtpOutcome),
      (VerificationStart.validatePhoneNumber lib phoneOpt).isValid = false →
      ∃ msg, startHandler lib "POST" (.ok phoneOpt) send
        = (⟨400, .jsonError msg⟩, []))
    ∧ (∀ (lib : PhoneLib) (p : String), startsWithPlus p = false →
      (VerificationStart.validatePhoneNumber lib (some p)).isValid = false) := by
  constructor
  · intro lib phoneOpt send hinvalid
    refine ⟨(VerificationStart.validatePhoneNumber lib phoneOpt).error.getD
      "Invalid phone number format. Please use international format (e.g., +1234567890)", ?_⟩
    simp [startHandler, hinvalid]
  · intro lib p hplus
    cases he : p.data.isEmpty with
    | true => simp [VerificationStart.validatePhoneNumber, he]
    | false => simp [VerificationStart.validatePhoneNumber, he, hplus]

/-- Witness for C7 at the plain-digit string 0123. -/
theorem C7_witness :
    (∃ msg, startHandler rejectAllLib "POST" (.ok (some "0123")) .sent
        = (⟨400, .jsonError msg⟩, []))
    ∧ (VerificationStart.validatePhoneNumber rejectAllLib (some "0123")).isValid
        = false :=
  ⟨C7_invalid_phone_no_send.1 rejectAllLib (some "0123") .sent (by decide),
   C7_invalid_phone_no_send.2 rejectAllLib "0123" (by decide)⟩

/-- C8: the trigger returns the triggering row unmodified; when a profile
row with the new id exists the table is unchanged; when none exists exactly
the row with the new id, email and phone is appended; running the trigger
body a second time for the same row is a no-op; and distinctness of profile
ids is preserved, keeping one profile row per identity id. -/
theorem C8_trigger_idempotent_upsert (t : List ProfileRow) (u : AuthUserRow) :
    (handle_new_user t u).2 = u
    ∧ ((∃ r ∈ t, r.id = u.id) → (handle_new_user t u).1 = t)
    ∧ ((¬∃ r ∈ t, r.id = u.id) → (handle_new_user t u).1 = t ++ [profileRowFor u])
    ∧ (handle_new_user (handle_new_user t u).1 u).1 = (handle_new_user t u).1
    ∧ (t.Pairwise (fun a b => a.id ≠ b.id) →
        ((handle_new_user t u).1).Pairwise (fun a b => a.id ≠ b.id)) := by
  have hany : (t.any (fun r => r.id == u.id) = true) ↔ ∃ r ∈ t, r.id = u.id := by
    simp [List.any_eq_true]
  by_cases h : t.any (fun r => r.id == u.id) = true
  · refine ⟨by simp [handle_new_user, h], fun _ => by simp [handle_new_user, h],
      fun hn => absurd (hany.mp h) hn, by simp [handle_new_user, h],
      fun hp => by simpa [handle_new_user, h] using hp⟩
  · have h' : t.any (fun r => r.id == u.id) = false := Bool.eq_false_iff.mpr h
    have hno : ¬∃ r ∈ t, r.id = u.id := fun hex => h (hany.mpr hex)
    have hall : ∀ r ∈ t, r.id ≠ u.id := fun r hr heq => hno ⟨r, hr, heq⟩
    have happ : ((t ++ [profileRowFor u]).any (fun r => r.id == u.id)) = true := by
      simp [List.any_append, profileRowFor]
    refine ⟨by simp [handle_new_user, h'], fun hex => absurd hex hno,
      fun _ => by simp [handle_new_user, h'], ?_, ?_⟩
    · simp [handle_new_user, h', happ]
    · intro hp
      simp only [handle_new_user, h', Bool.false_eq_true, if_false]
      rw [List.pairwise_append]
      refine ⟨hp, List.pairwise_singleton _ _, ?_⟩
      intro a ha b hb
      simp only [List.mem_singleton] at hb
      subst hb
      simpa [profileRowFor] using hall a ha

/-- Witness for C8 at an empty table and a concrete new user row. -/
theorem C8_witness :
    (handle_new_user [] ⟨"user-1", some "a@b.c", some "15550100"⟩).2
        = ⟨"user-1", some "a@b.c", some "15550100"⟩
    ∧ ((∃ r ∈ ([] : List ProfileRow), r.id = "user-1") →
        (handle_new_user [] ⟨"user-1", some "a@b.c", some "15550100"⟩).1 = [])
    ∧ ((¬∃ r ∈ ([] : List ProfileRow), r.id = "user-1") →
        (handle_new_user [] ⟨"user-1", some "a@b.c", some "15550100"⟩).1
          = [] ++ [profileRowFor ⟨"user-1", some "a@b.c", some "15550100"⟩])
    ∧ (handle_new_user
          (handle_new_user [] ⟨"user-1", some "a@b.c", some "15550100"⟩).1
          ⟨"user-1", some "a@b.c", some "15550100"⟩).1
        = (handle_new_user [] ⟨"user-1", some "a@b.c", some "15550100"⟩).1
    ∧ (([] : List ProfileRow).Pairwise (fun a b => a.id ≠ b.id) →
        ((handle_new_user [] ⟨"user-1", some "a@b.c", some "15550100"⟩).1).Pairwise
          (fun a b => a.id ≠ b.id)) :=
  C8_trigger_idempotent_upsert [] ⟨"user-1", some "a@b.c", some "15550100"⟩

/-- C9: on a POST whose body fails to parse as JSON, each handler responds
500 with the body error "Internal server error" and issues no provider
call, whatever the provider outcomes would have been. -/
theorem C9_malformed_body_500 :
    (∀ (otp : VerifyOtpOutcome) (p : ProfileReadOutcome),
      verifyHandler "POST" .failed otp p
        = (⟨500, .jsonError "Internal server error"⟩, []))
    ∧ (∀ (lib : PhoneLib) (send : SignInOtpOutcome),
      startHandler lib "POST" .failed send
        = (⟨500, .jsonError "Internal server error"⟩, [])) :=
  ⟨fun _ _ => rfl, fun _ _ => rfl⟩

/-- C10: the two phone validators disagree: the string +19999999999999
matches the verify regex, while the start validator rejects it under every
library behavior on which general validation does not fully succeed on that
string, which models the libphonenumber-js behavior since no numbering plan
admits a country-code-1 number with thirteen national digits. -/
theorem C10_validators_disagree (lib : PhoneLib)
    (hgen : ¬(lib.parse "+19999999999999" = .parsed true
        ∧ lib.isValidStandalone "+19999999999999" = true)) :
    VerificationVerify.validatePhoneNumber "+19999999999999" = true
    ∧ (VerificationStart.validatePhoneNumber lib (some "+19999999999999")).isValid
        = false :=
  ⟨by decide,
   VerificationStart.validate_rejects_nonTest_genFail lib "+19999999999999"
     (by decide) (by decide) hgen⟩

/-- Witness for C10 at a concrete library behavior rejecting every input. -/
theorem C10_witness :
    (¬(rejectAllLib.parse "+19999999999999" = .parsed true
        ∧ rejectAllLib.isValidStandalone "+19999999999999" = true))
    ∧ (VerificationVerify.validatePhoneNumber "+19999999999999" = true
      ∧ (VerificationStart.validatePhoneNumber rejectAllLib
          (some "+19999999999999")).isValid = false) :=
  ⟨by decide, C10_validators_disagree rejectAllLib (by decide)⟩

end Luiza
